import Mathlib

/-!
Shallow embedding of the audio-normalization pipeline of
`src/audio_utils.py` and the spectrogram generator of
`src/spectogram_utils.py`, together with theorems about them.

Conventions:
* A torch tensor of shape (channels, samples) is a `List (List Int)`.
* Library transforms (torchaudio resampling, the mel filterbank magnitude
  computation, the pointwise decibel map) are uninterpreted function
  parameters; repository code and documented library defaults are embedded
  concretely.
* `random.randint(0, d)` is modelled by an explicit parameter together with
  the hypothesis that it lies in `[0, d]` where a theorem needs it.
* The channel-related operations are embedded in `Except AudioError` so
  that the specification's failure claims can be stated; the repository's
  own code raises nothing, which the theorems make precise.
-/

/-- Error kinds named by the specification's error model
(UnsupportedChannelConversion, InvalidSampleRate, InvalidDuration).
The repository's source defines none of them; the type exists so that
claims about failure have a formal home. -/
inductive AudioError where
  | unsupportedChannelConversion (srcCount tgtCount : Nat)
  | invalidSampleRate (rate : Nat)
  | invalidDuration (ms : Nat)
deriving DecidableEq

/-- AudioData from src/audio_utils.py: a signal tensor (channels x samples)
tagged with its sample rate. -/
structure AudioData where
  signal : List (List Int)
  sample_rate : Nat
deriving DecidableEq

/-- Samples per channel as read off the tensor shape (`signal.shape[1]`):
the length of the first channel row (torch tensors are rectangular, so all
rows agree; rectangularity is a hypothesis where a theorem needs it). -/
def AudioData.sigLen (a : AudioData) : Nat := (a.signal.headD []).length

/-- Audio processing parameter new_channel from src/audio_utils.py
(convert all audio to stereo). -/
def new_channel : Nat := 2

/-- Audio processing parameter new_sr from src/audio_utils.py
(target sample rate). -/
def new_sr : Nat := 16000

/-- Audio processing parameter max_ms from src/audio_utils.py
(maximum audio length in milliseconds). -/
def max_ms : Nat := 10000

/-- rechannel from src/audio_utils.py: convert audio to the desired number
of channels. `signal[:1, :]` is `take 1` on the row list and
`torch.cat([sig, sig])` is row-list append. The source raises no error on
any input pair, so every branch returns `.ok`. -/
def rechannel (audio_data : AudioData) (new_channel : Nat) :
    Except AudioError AudioData :=
  if audio_data.signal.length = new_channel then
    .ok audio_data
  else if new_channel = 1 then
    .ok ⟨audio_data.signal.take 1, audio_data.sample_rate⟩
  else
    .ok ⟨audio_data.signal ++ audio_data.signal, audio_data.sample_rate⟩

/-- resample from src/audio_utils.py: resample audio to the target sample
rate. The torchaudio.transforms.Resample application is the uninterpreted
parameter `lib` taking the source rate, the target rate and a block of
channel rows. The source code performs no validation of `newsr`; it either
returns the input unchanged or retags the library's output with `newsr`. -/
def resample (lib : Nat → Nat → List (List Int) → List (List Int))
    (audio_data : AudioData) (newsr : Nat) : Except AudioError AudioData :=
  if audio_data.sample_rate = newsr then
    .ok audio_data
  else
    let num_channels := audio_data.signal.length
    let resig := lib audio_data.sample_rate newsr (audio_data.signal.take 1)
    let resig :=
      if num_channels > 1 then
        resig ++ lib audio_data.sample_rate newsr (audio_data.signal.drop 1)
      else resig
    .ok ⟨resig, newsr⟩

/-- pad_trunc from src/audio_utils.py: pad or truncate audio to the target
length. `pad_begin_len` stands for the draw of
`random.randint(0, max_len - sig_len)`; theorems entering the padding
branch hypothesise the randint bound `pad_begin_len ≤ max_len - sig_len`.
Truncation `signal[:, :max_len]` takes a prefix of every row; the
concatenation of the two zero blocks along dim 1 prepends and appends
zeros to every row. -/
def pad_trunc (audio_data : AudioData) (max_ms : Nat) (pad_begin_len : Nat) :
    AudioData :=
  let sig_len := audio_data.sigLen
  let max_len := audio_data.sample_rate / 1000 * max_ms
  if sig_len > max_len then
    ⟨audio_data.signal.map (fun ch => ch.take max_len), audio_data.sample_rate⟩
  else if sig_len < max_len then
    let pad_end_len := max_len - sig_len - pad_begin_len
    ⟨audio_data.signal.map (fun ch =>
        List.replicate pad_begin_len 0 ++ ch ++ List.replicate pad_end_len 0),
      audio_data.sample_rate⟩
  else
    ⟨audio_data.signal, audio_data.sample_rate⟩

/-- process_audio from src/audio_utils.py: rechannel to stereo, resample to
the target rate, then pad or truncate to the fixed length, any stage's
exception propagating unchanged. `r` is the padding stage's random draw. -/
def process_audio (lib : Nat → Nat → List (List Int) → List (List Int))
    (r : Nat) (audio_data : AudioData) : Except AudioError AudioData :=
  match rechannel audio_data new_channel with
  | .error e => .error e
  | .ok a1 =>
    match resample lib a1 new_sr with
    | .error e => .error e
    | .ok a2 => .ok (pad_trunc a2 max_ms r)

/-- Hop length that torchaudio.transforms.MelSpectrogram uses for the value
create_spectogram hands it: an explicit hop_length is kept as is, and None
resolves to `win_length // 2` with `win_length` itself defaulting to
`n_fft` — the library's documented default, embedded here because the
repository passes `hop_len=None` through to it. -/
def melSpectrogramHopLength (n_fft : Nat) (hop_len : Option Nat) : Nat :=
  match hop_len with
  | some h => h
  | none => n_fft / 2

/-- Maximum entry of a flattened tensor (torch `amax`), 0 on the empty
tensor (torch errors there; no theorem relies on the empty case). -/
def tensorMax : List Rat → Rat
  | [] => 0
  | [x] => x
  | x :: y :: xs => max x (tensorMax (y :: xs))

/-- torchaudio.transforms.AmplitudeToDB with a top_db clamp, over the
flattened tensor: the pointwise decibel map is the uninterpreted parameter
`dbOf`; afterwards every entry is floored at (maximum of the tensor) −
top_db, which is what the transform does when top_db is set. -/
def amplitude_to_db (dbOf : Rat → Rat) (top_db : Rat) (spec : List Rat) :
    List Rat :=
  let x_db := spec.map dbOf
  x_db.map (fun d => max d (tensorMax x_db - top_db))

/-- create_spectogram from src/spectogram_utils.py: the mel spectrogram
library transform is the uninterpreted parameter `melLib` (applied to the
signal, the sample rate, n_fft, the resolved hop length and n_mels,
yielding the flattened magnitude tensor), followed by AmplitudeToDB with
top_db = 80 as set in the source. -/
def create_spectogram
    (melLib : List (List Int) → Nat → Nat → Nat → Nat → List Rat)
    (dbOf : Rat → Rat) (audio_data : AudioData)
    (n_mels n_fft : Nat) (hop_len : Option Nat) : List Rat :=
  let top_db : Rat := 80
  let spec := melLib audio_data.signal audio_data.sample_rate n_fft
    (melSpectrogramHopLength n_fft hop_len) n_mels
  amplitude_to_db dbOf top_db spec

instance : DecidableEq (Except AudioError AudioData) := fun x y =>
  match x, y with
  | .ok a, .ok b =>
    if h : a = b then .isTrue (congrArg Except.ok h)
    else .isFalse (fun g => h (Except.ok.inj g))
  | .error a, .error b =>
    if h : a = b then .isTrue (congrArg Except.error h)
    else .isFalse (fun g => h (Except.error.inj g))
  | .ok _, .error _ => .isFalse (fun g => Except.noConfusion g)
  | .error _, .ok _ => .isFalse (fun g => Except.noConfusion g)

/-- C2: for every waveform `w` and target channel count `t` outside the
supported conversions (equal counts, `t = 1`, or `t = 2` on a 1-channel
input), rechannel fails with an UnsupportedChannelConversion error. This is
refuted at the 4-channel input with target 2 — an unsupported pair on which
rechannel succeeds, returning the channels doubled instead of an error. -/
theorem rechannel_unsupported_no_error_cex :
    ((4 : Nat) ≠ 2 ∧ (2 : Nat) ≠ 1 ∧ (4 : Nat) ≠ 1)
    ∧ rechannel ⟨[[0], [0], [0], [0]], 16000⟩ 2
        = .ok ⟨[[0], [0], [0], [0], [0], [0], [0], [0]], 16000⟩ := by
  decide

/-- C2 (amended): rechannel performs no validation of the channel pair and
never fails with UnsupportedChannelConversion (or any other error); every
call, supported pair or not, returns a waveform. -/
theorem rechannel_total (audio_data : AudioData) (t : Nat) :
    ∃ b : AudioData, rechannel audio_data t = .ok b := by
  unfold rechannel
  by_cases h1 : audio_data.signal.length = t
  · rw [if_pos h1]; exact ⟨_, rfl⟩
  · rw [if_neg h1]
    by_cases h2 : t = 1
    · rw [if_pos h2]; exact ⟨_, rfl⟩
    · rw [if_neg h2]; exact ⟨_, rfl⟩

/-- C3: rechannel applied twice with the same target equals rechannel
applied once, for every waveform and target. Refuted at the 1-channel
waveform with target 3: one application yields 2 channels, a second
application doubles again to 4 channels. -/
theorem rechannel_not_idempotent_cex :
    (rechannel ⟨[[0]], 8000⟩ 3).bind (fun b => rechannel b 3)
      ≠ rechannel ⟨[[0]], 8000⟩ 3 := by
  decide

/-- C3 (amended): rechannel applied twice with the same target `t` equals
rechannel applied once whenever the first application lands on the target
channel count — that is, when `t = 1`, or the input channel count already
equals `t`, or doubling the input channel count gives `t`. Outside these
cases each application doubles the channel count again. -/
theorem rechannel_idempotent_of_supported (audio_data : AudioData) (t : Nat)
    (h : t = 1 ∨ audio_data.signal.length = t
        ∨ 2 * audio_data.signal.length = t) :
    (rechannel audio_data t).bind (fun b => rechannel b t)
      = rechannel audio_data t := by
  by_cases hc : audio_data.signal.length = t
  · simp [rechannel, hc, Except.bind]
  · rcases h with h1 | h1 | h1
    · subst h1
      cases hsg : audio_data.signal with
      | nil =>
        rw [hsg] at hc
        simp [rechannel, hsg, Except.bind, hc]
      | cons c cs =>
        rw [hsg] at hc
        simp only [List.length_cons] at hc
        have hcs : cs ≠ [] := by
          intro hh
          subst hh
          exact hc rfl
        simp [rechannel, hsg, Except.bind, hcs]
    · exact absurd h1 hc
    · have ht1 : t ≠ 1 := by omega
      have hlen : (audio_data.signal ++ audio_data.signal).length = t := by
        simp [List.length_append]
        omega
      simp [rechannel, hc, ht1, Except.bind, hlen]


/-- Witness for the amended C3 theorem: the 1-channel waveform with target 2
(the configuration the pipeline actually uses), where doubling lands on the
target. -/
theorem rechannel_idempotent_witness :
    (rechannel ⟨[[0]], 8000⟩ 2).bind (fun b => rechannel b 2)
      = rechannel ⟨[[0]], 8000⟩ 2 :=
  rechannel_idempotent_of_supported ⟨[[0]], 8000⟩ 2
    (Or.inr (Or.inr (by decide)))

/-- C9: when the input channel count differs from the target and the target
is not 1, rechannel returns the input's channels concatenated with
themselves — exactly twice the input's channel count — with the sample rate
kept. -/
theorem rechannel_doubles_channels (audio_data : AudioData) (t : Nat)
    (hc : audio_data.signal.length ≠ t) (ht : t ≠ 1) :
    rechannel audio_data t
      = .ok ⟨audio_data.signal ++ audio_data.signal, audio_data.sample_rate⟩
    ∧ (audio_data.signal ++ audio_data.signal).length
        = 2 * audio_data.signal.length := by
  constructor
  · simp [rechannel, hc, ht]
  · simp [List.length_append]
    omega

/-- Witness for the C9 theorem: a 4-channel input with target 2 yields the
four channels doubled to 8. -/
theorem rechannel_doubles_channels_witness :
    rechannel ⟨[[1], [2], [3], [4]], 44100⟩ 2
      = .ok ⟨[[1], [2], [3], [4]] ++ [[1], [2], [3], [4]], 44100⟩
    ∧ (([[1], [2], [3], [4]] : List (List Int))
        ++ [[1], [2], [3], [4]]).length
        = 2 * ([[1], [2], [3], [4]] : List (List Int)).length :=
  rechannel_doubles_channels ⟨[[1], [2], [3], [4]], 44100⟩ 2
    (by decide) (by decide)

/-- C8: for every target rate at most 0, resample fails with an
InvalidSampleRate error. Refuted at target rate 0 on a 16000 Hz waveform:
the source performs no validation, delegates to the library transform
(here the uninterpreted `lib`, instantiated with an identity stand-in) and
returns a waveform tagged with rate 0 rather than any error. -/
theorem resample_zero_rate_no_error_cex :
    resample (fun _ _ s => s) ⟨[[1, 2]], 16000⟩ 0
      = .ok ⟨[[1, 2]], 0⟩ := by
  decide

/-- C8 (amended): resample performs no validation of the target rate and
never fails with InvalidSampleRate (or any other error of its own): for
every library resampler, waveform and target rate — 0 included — it returns
a waveform. -/
theorem resample_total (lib : Nat → Nat → List (List Int) → List (List Int))
    (audio_data : AudioData) (newsr : Nat) :
    ∃ b : AudioData, resample lib audio_data newsr = .ok b := by
  unfold resample
  by_cases h : audio_data.sample_rate = newsr
  · rw [if_pos h]; exact ⟨_, rfl⟩
  · rw [if_neg h]; exact ⟨_, rfl⟩

/-- C10: rechannel and pad_trunc return a waveform with the same
sample_rate as their input, and resample returns a waveform whose
sample_rate equals the requested target rate, for every input and every
parameter value. -/
theorem transforms_sample_rate_frame
    (lib : Nat → Nat → List (List Int) → List (List Int))
    (audio_data : AudioData) (t newsr ms r : Nat) :
    (rechannel audio_data t).map AudioData.sample_rate
        = .ok audio_data.sample_rate
    ∧ (resample lib audio_data newsr).map AudioData.sample_rate = .ok newsr
    ∧ (pad_trunc audio_data ms r).sample_rate = audio_data.sample_rate := by
  refine ⟨?_, ?_, ?_⟩
  · by_cases h1 : audio_data.signal.length = t
    · simp [rechannel, h1, Except.map]
    · by_cases h2 : t = 1
      · subst h2
        simp [rechannel, h1, Except.map]
      · simp [rechannel, h1, h2, Except.map]
  · by_cases h : audio_data.sample_rate = newsr
    · simp [resample, h, Except.map]
    · simp [resample, h, Except.map]
  · by_cases h1 : audio_data.sigLen > audio_data.sample_rate / 1000 * ms
    · simp [pad_trunc, h1]
    · by_cases h2 : audio_data.sigLen < audio_data.sample_rate / 1000 * ms
      · simp [pad_trunc, h1, h2]
      · simp [pad_trunc, h1, h2]

/-- C1: for every rectangular waveform, every target duration and every
outcome of the padding draw within the randint bound, pad_trunc returns a
waveform all of whose channels have exactly
`sample_rate / 1000 * target_ms` samples (integer floor arithmetic), in the
truncate, pad, and equal branches alike. -/
theorem pad_trunc_output_length (a : AudioData) (ms r : Nat)
    (hu : a.signal.all (fun ch => ch.length == a.sigLen) = true)
    (hr : r ≤ a.sample_rate / 1000 * ms - a.sigLen) :
    (pad_trunc a ms r).signal.all
      (fun ch => ch.length == a.sample_rate / 1000 * ms) = true := by
  have hml : ∀ c ∈ a.signal, c.length = a.sigLen := by
    simpa [List.all_eq_true] using hu
  simp only [List.all_eq_true, beq_iff_eq]
  intro ch hch
  by_cases h1 : a.sigLen > a.sample_rate / 1000 * ms
  · simp only [pad_trunc, if_pos h1] at hch
    obtain ⟨c, hc, rfl⟩ := List.mem_map.mp hch
    have := hml c hc
    simp [List.length_take]
    omega
  · by_cases h2 : a.sigLen < a.sample_rate / 1000 * ms
    · simp only [pad_trunc, if_neg h1, if_pos h2] at hch
      obtain ⟨c, hc, rfl⟩ := List.mem_map.mp hch
      have := hml c hc
      simp [List.length_append, List.length_replicate]
      omega
    · simp only [pad_trunc, if_neg h1, if_neg h2] at hch
      have := hml ch hch
      omega

/-- Witness for the C1 theorem: a 3-sample, 8000 Hz channel padded to
8000 / 1000 * 1 = 8 samples with the draw 2. -/
theorem pad_trunc_output_length_witness :
    (pad_trunc ⟨[[1, 2, 3]], 8000⟩ 1 2).signal.all
      (fun ch => ch.length == 8000 / 1000 * 1) = true :=
  pad_trunc_output_length ⟨[[1, 2, 3]], 8000⟩ 1 2 (by decide) (by decide)

/-- C6: in the padding branch (`sigLen < target_len`), for every draw
`pad_begin_len` within the randint bound, the split sums to the deficit
(`pad_begin_len + pad_end_len = target_len - sigLen` with
`pad_begin_len ≤ target_len - sigLen`), and every channel becomes
`pad_begin_len` zeros, then its original samples, then `pad_end_len`
zeros. -/
theorem pad_trunc_pad_split (a : AudioData) (ms r : Nat)
    (hlt : a.sigLen < a.sample_rate / 1000 * ms)
    (hr : r ≤ a.sample_rate / 1000 * ms - a.sigLen) :
    r + (a.sample_rate / 1000 * ms - a.sigLen - r)
        = a.sample_rate / 1000 * ms - a.sigLen
    ∧ r ≤ a.sample_rate / 1000 * ms - a.sigLen
    ∧ (pad_trunc a ms r).signal
        = a.signal.map (fun ch =>
            List.replicate r 0 ++ ch
              ++ List.replicate (a.sample_rate / 1000 * ms - a.sigLen - r) 0) := by
  have h1 : ¬ (a.sigLen > a.sample_rate / 1000 * ms) := by omega
  refine ⟨by omega, hr, ?_⟩
  simp only [pad_trunc, if_neg h1, if_pos hlt]

/-- Witness for the C6 theorem: deficit 5, draw 2, so 2 zeros in front and
3 zeros behind each channel. -/
theorem pad_trunc_pad_split_witness :
    2 + (8000 / 1000 * 1 - AudioData.sigLen ⟨[[1, 2, 3]], 8000⟩ - 2)
        = 8000 / 1000 * 1 - AudioData.sigLen ⟨[[1, 2, 3]], 8000⟩
    ∧ 2 ≤ 8000 / 1000 * 1 - AudioData.sigLen ⟨[[1, 2, 3]], 8000⟩
    ∧ (pad_trunc ⟨[[1, 2, 3]], 8000⟩ 1 2).signal
        = [[1, 2, 3]].map (fun ch =>
            List.replicate 2 0 ++ ch
              ++ List.replicate
                  (8000 / 1000 * 1 - AudioData.sigLen ⟨[[1, 2, 3]], 8000⟩ - 2) 0) :=
  pad_trunc_pad_split ⟨[[1, 2, 3]], 8000⟩ 1 2 (by decide) (by decide)

/-- C7: a waveform already matching the pipeline configuration — channel
count `new_channel`, sample rate `new_sr`, every channel of length
`new_sr / 1000 * max_ms` — passes through process_audio unchanged, every
stage (rechannel, resample, pad_trunc) being a no-op, for every library
resampler and every padding draw. -/
theorem process_audio_noop
    (lib : Nat → Nat → List (List Int) → List (List Int)) (r : Nat)
    (a : AudioData)
    (hc : a.signal.length = new_channel)
    (hs : a.sample_rate = new_sr)
    (hl : a.signal.all (fun ch => ch.length == new_sr / 1000 * max_ms) = true) :
    rechannel a new_channel = .ok a
    ∧ resample lib a new_sr = .ok a
    ∧ pad_trunc a max_ms r = a
    ∧ process_audio lib r a = .ok a := by
  have hsig : a.sigLen = new_sr / 1000 * max_ms := by
    cases hsg : a.signal with
    | nil =>
      rw [hsg] at hc
      simp [new_channel] at hc
    | cons c cs =>
      have hcl : c.length = new_sr / 1000 * max_ms := by
        rw [hsg] at hl
        simp only [List.all_cons, Bool.and_eq_true, beq_iff_eq] at hl
        exact hl.1
      simp [AudioData.sigLen, hsg, hcl]
  have h1 : rechannel a new_channel = .ok a := by
    simp [rechannel, hc]
  have h2 : resample lib a new_sr = .ok a := by
    simp [resample, hs]
  have h3 : pad_trunc a max_ms r = a := by
    have hml : a.sample_rate / 1000 * max_ms = a.sigLen := by
      rw [hs, hsig]
    simp only [pad_trunc, hml, gt_iff_lt, lt_self_iff_false, if_false]
  exact ⟨h1, h2, h3, by simp [process_audio, h1, h2, h3]⟩

/-- Witness for the C7 theorem: the all-zero 2-channel, 16000 Hz, 160000
sample (10 s) waveform, with the identity stand-in for the library
resampler and draw 0. -/
theorem process_audio_noop_witness :
    rechannel ⟨[List.replicate 160000 0, List.replicate 160000 0], 16000⟩
        new_channel
      = .ok ⟨[List.replicate 160000 0, List.replicate 160000 0], 16000⟩
    ∧ resample (fun _ _ s => s)
        ⟨[List.replicate 160000 0, List.replicate 160000 0], 16000⟩ new_sr
      = .ok ⟨[List.replicate 160000 0, List.replicate 160000 0], 16000⟩
    ∧ pad_trunc ⟨[List.replicate 160000 0, List.replicate 160000 0], 16000⟩
        max_ms 0
      = ⟨[List.replicate 160000 0, List.replicate 160000 0], 16000⟩
    ∧ process_audio (fun _ _ s => s) 0
        ⟨[List.replicate 160000 0, List.replicate 160000 0], 16000⟩
      = .ok ⟨[List.replicate 160000 0, List.replicate 160000 0], 16000⟩ :=
  process_audio_noop (fun _ _ s => s) 0
    ⟨[List.replicate 160000 0, List.replicate 160000 0], 16000⟩
    rfl rfl (by
      simp only [List.all_cons, List.all_nil, List.length_replicate,
        Bool.and_true]
      decide)

/-- Every entry of a tensor is at most its maximum. -/
theorem le_tensorMax : ∀ (xs : List Rat) (x : Rat), x ∈ xs → x ≤ tensorMax xs
  | [], x, h => absurd h (List.not_mem_nil x)
  | [y], x, h => by
    rw [List.mem_singleton] at h
    subst h
    exact le_of_eq rfl
  | y :: z :: zs, x, h => by
    rcases List.mem_cons.mp h with h | h
    · subst h
      exact le_max_left _ _
    · exact le_trans (le_tensorMax (z :: zs) x h) (le_max_right _ _)

/-- The maximum of a nonempty tensor is one of its entries. -/
theorem tensorMax_mem : ∀ (xs : List Rat), xs ≠ [] → tensorMax xs ∈ xs
  | [], h => absurd rfl h
  | [y], _ => by
    rw [show tensorMax [y] = y from rfl]
    exact List.mem_singleton_self y
  | y :: z :: zs, _ => by
    rw [show tensorMax (y :: z :: zs) = max y (tensorMax (z :: zs)) from rfl]
    rcases max_choice y (tensorMax (z :: zs)) with h | h
    · rw [h]
      exact List.mem_cons_self y (z :: zs)
    · rw [h]
      exact List.mem_cons_of_mem y (tensorMax_mem (z :: zs) (by simp))

/-- C5: every element `d` of the tensor returned by create_spectogram lies
within top_db = 80 of the tensor's peak: `max(output) - d ≤ 80`, for every
waveform, spectrogram configuration, mel library transform and pointwise
decibel map. -/
theorem create_spectogram_top_db_clamp
    (melLib : List (List Int) → Nat → Nat → Nat → Nat → List Rat)
    (dbOf : Rat → Rat) (audio_data : AudioData) (n_mels n_fft : Nat)
    (hop_len : Option Nat) (d : Rat)
    (hd : d ∈ create_spectogram melLib dbOf audio_data n_mels n_fft hop_len) :
    tensorMax (create_spectogram melLib dbOf audio_data n_mels n_fft hop_len)
      - d ≤ 80 := by
  have hspec : create_spectogram melLib dbOf audio_data n_mels n_fft hop_len
      = ((melLib audio_data.signal audio_data.sample_rate n_fft
            (melSpectrogramHopLength n_fft hop_len) n_mels).map dbOf).map
          (fun v =>
            max v (tensorMax ((melLib audio_data.signal
              audio_data.sample_rate n_fft
              (melSpectrogramHopLength n_fft hop_len) n_mels).map dbOf)
              - 80)) := rfl
  rw [hspec] at hd ⊢
  set xs := (melLib audio_data.signal audio_data.sample_rate n_fft
    (melSpectrogramHopLength n_fft hop_len) n_mels).map dbOf with hxs
  obtain ⟨v, hv, rfl⟩ := List.mem_map.mp hd
  have hlow : tensorMax xs - 80 ≤ max v (tensorMax xs - 80) := le_max_right _ _
  have hne : xs.map (fun v => max v (tensorMax xs - 80)) ≠ [] := by
    intro hemp
    rw [hemp] at hd
    exact List.not_mem_nil _ hd
  obtain ⟨w, hw, hweq⟩ := List.mem_map.mp (tensorMax_mem _ hne)
  have hwle : w ≤ tensorMax xs := le_tensorMax xs w hw
  have hub : tensorMax (xs.map (fun v => max v (tensorMax xs - 80)))
      ≤ tensorMax xs := by
    rw [← hweq]
    exact max_le hwle (by linarith)
  linarith

/-- Witness for the C5 theorem: a stand-in mel transform producing the
two-entry tensor with values 1 and 2, the identity decibel map, and the
element 1, which lies 1 dB below the peak 2. -/
theorem create_spectogram_top_db_clamp_witness :
    tensorMax (create_spectogram (fun _ _ _ _ _ => [1, 2]) (fun x => x)
      ⟨[[0]], 16000⟩ 64 1024 none) - 1 ≤ 80 :=
  create_spectogram_top_db_clamp (fun _ _ _ _ _ => [1, 2]) (fun x => x)
    ⟨[[0]], 16000⟩ 64 1024 none 1 (by
      show (1 : Rat) ∈ create_spectogram _ _ _ _ _ _
      rw [show create_spectogram (fun _ _ _ _ _ => [1, 2]) (fun x => x)
            ⟨[[0]], 16000⟩ 64 1024 none
          = [max 1 (tensorMax [(1 : Rat), 2] - 80),
             max 2 (tensorMax [(1 : Rat), 2] - 80)] from rfl]
      have h1 : tensorMax [(1 : Rat), 2] = 2 := by
        rw [show tensorMax [(1 : Rat), 2] = max 1 (tensorMax [(2 : Rat)]) from
          rfl]
        rw [show tensorMax [(2 : Rat)] = 2 from rfl]
        norm_num
      rw [h1]
      have h2 : max (1 : Rat) (2 - 80) = 1 := by norm_num
      rw [h2]
      exact List.mem_cons_self _ _)

/-- C4: when hop_len is unspecified, create_spectogram computes the
short-time Fourier transform with hop size `n_fft // 4`. Refuted at
n_fft = 1024: the hop length the torchaudio transform resolves None to is
`win_length // 2 = n_fft // 2 = 512`, not `1024 // 4 = 256`. -/
theorem default_hop_not_quarter_cex :
    melSpectrogramHopLength 1024 none = 1024 / 2
    ∧ melSpectrogramHopLength 1024 none ≠ 1024 / 4 := by
  decide

/-- C4 (amended): when hop_len is unspecified, create_spectogram hands the
mel spectrogram transform the hop size `n_fft // 2` (the library default
`win_length // 2` with `win_length = n_fft`), for every configuration. -/
theorem create_spectogram_default_hop
    (melLib : List (List Int) → Nat → Nat → Nat → Nat → List Rat)
    (dbOf : Rat → Rat) (audio_data : AudioData) (n_mels n_fft : Nat) :
    create_spectogram melLib dbOf audio_data n_mels n_fft none
      = amplitude_to_db dbOf 80
          (melLib audio_data.signal audio_data.sample_rate n_fft (n_fft / 2)
            n_mels) := rfl
